import Mathlib

/-!
Shallow embedding of `mldataset.py` (class `MLDataset`), the single source
file of the pyradigm repository, together with proofs about the claims of
its specification.

Modelling conventions:
* Python `OrderedDict` instances become association lists `List (String × α)`
  whose key lists are duplicate-free; insertion of a fresh key appends at
  the end, which matches `OrderedDict` iteration-order semantics.
* Feature containers (`features` arguments) become a `Features` record
  carrying the Python container type tag (`type(features)`) and the numeric
  payload, since the source enforces container type, not element dtype.
* Labels and class ids are opaque comparable Python values (`Value`).
* Mutating methods (`add_sample`, the `data`/`labels` setters,
  `add_classes`) return the post-state paired with the raised exception, if
  any; every `raise`/failed `assert` in the source happens before any
  mutation, so on an error the returned state is the receiver unchanged.
* Methods that build new datasets (`__init__` in bulk form, `get_subset`,
  `get_class`) return `Except PyError _`; they never mutate the receiver.
* `warnings.warn` in `get_subset` is modelled by a `Bool` flag in the
  result (`true` iff the warning was emitted).
-/

/-- Python container type tags relevant to the source: `type(features)` and
`type(data)` values.  `subList` stands for a user subclass of `list` and
`odict` for `collections.OrderedDict`, a subclass of `dict`. -/
inductive PyType
  | pyList
  | subList
  | pyTuple
  | ndarray
  | pyDict
  | odict
  deriving DecidableEq, Repr

/-- Python `isinstance(x, t)`: true on the exact class and on superclasses.
`subList` is a subclass of `list`; `OrderedDict` is a subclass of `dict`. -/
def PyType.isinstanceOf (t u : PyType) : Bool :=
  t == u || (t == PyType.subList && u == PyType.pyList)
    || (t == PyType.odict && u == PyType.pyDict)

/-- Opaque comparable Python values used for labels and class ids. -/
inductive Value
  | int (i : Int)
  | str (s : String)
  | noneV
  deriving DecidableEq, Repr

/-- A feature container: its Python container type and its contents.
`len(features)` is the length of `vals`. -/
structure Features where
  ptype : PyType
  vals : List Int
  deriving DecidableEq, Repr

def Features.len (f : Features) : Nat := f.vals.length

/-- An `OrderedDict` keyed by sample/subject id, as an association list. -/
abbrev OMap (α : Type) := List (String × α)

def OMap.keys {α : Type} (m : OMap α) : List String := m.map Prod.fst

def OMap.vals {α : Type} (m : OMap α) : List α := m.map Prod.snd

/-- Python `k in d` for a dict `d`. -/
def OMap.hasKey {α : Type} (m : OMap α) (k : String) : Bool :=
  (OMap.keys m).contains k

/-- Python `d[k]` as an option (keys are unique in a dict). -/
def OMap.lookup {α : Type} : OMap α → String → Option α
  | [], _ => Option.none
  | kv :: rest, k => if kv.1 = k then some kv.2 else OMap.lookup rest k

/-- Python `set(a) == set(b)` on key lists. -/
def setEqB (a b : List String) : Bool :=
  a.all (fun k => b.contains k) && b.all (fun k => a.contains k)

/-- The exceptions raised by `mldataset.py`, tagged by raise site.  In the
source most are `ValueError`s or failed `assert`s (`AssertionError`); the
constructor records which check failed. -/
inductive PyError
  | duplicateKey (id : String)
  | dimMismatch (got expected : Nat)
  | typeMismatch (expected : PyType)
  | sizeMismatchLabels
  | atLeastOneSample
  | notADict
  | sizeMismatchData
  | sizeMismatchClasses
  | unknownKeys
  | ctorLenMismatch
  | ctorKeyMismatch
  | ctorDimMismatch
  | unknownClass (c : Value)
  | emptyMax
  | noLen (v : Value)
  | emptyDescription
  | attrError
  deriving DecidableEq, Repr

/-- State of an `MLDataset` object: the three private `OrderedDict`s, the
cached feature count (`__num_features`), the cached container type
(`__dtype`, unset right after empty construction), and `__description`. -/
structure MLDataset where
  data : OMap Features
  labels : OMap Value
  classes : OMap Value
  num_features : Nat
  dtype : Option PyType
  description : String
  deriving DecidableEq, Repr

/-- `MLDataset()`: the empty-constructor branch of `__init__`. -/
def MLDataset.empty : MLDataset :=
  { data := [], labels := [], classes := [],
    num_features := 0, dtype := Option.none, description := "" }

/-- `num_samples` property: `len(self.__data)` (the data dict is never
`None` in any reachable state, so the `None` guard always takes the first
branch). -/
def MLDataset.num_samples (d : MLDataset) : Nat := d.data.length

/-- The bulk branch of `__init__(data, labels, classes, description)`.
`dataDictType` is `type(data)`, the Python class of the incoming mapping
(the source stores it in `self.__dtype`).  Checks, in source order: equal
lengths, equal key sets, a single distinct feature-vector length
(`np.unique` of the lengths has one element); then copies the three
mappings in their own iteration order. -/
def MLDataset.bulkInit (dataDictType : PyType) (data : OMap Features)
    (labels classes : OMap Value) (descr : String) : Except PyError MLDataset :=
  if data.length = labels.length ∧ labels.length = classes.length then
    if setEqB (OMap.keys data) (OMap.keys labels) = true ∧
        setEqB (OMap.keys labels) (OMap.keys classes) = true then
      if ((data.map (fun kv => kv.2.vals.length)).dedup).length = 1 then
        Except.ok
          { data := data, labels := labels, classes := classes,
            num_features := ((data.map (fun kv => kv.2.vals.length)).dedup).headD 0,
            dtype := some dataDictType, description := descr }
      else Except.error PyError.ctorDimMismatch
    else Except.error PyError.ctorKeyMismatch
  else Except.error PyError.ctorLenMismatch

/-- `add_sample(subject_id, features, label, class_id)`.  Returns the
post-state and the raised exception, if any; every raise precedes mutation
in the source, so on an error the state is unchanged. -/
def MLDataset.add_sample (d : MLDataset) (subject_id : String)
    (features : Features) (label class_id : Value) : MLDataset × Option PyError :=
  if OMap.hasKey d.data subject_id then
    (d, some (PyError.duplicateKey subject_id))
  else if MLDataset.num_samples d ≤ 0 then
    ({ d with data := d.data ++ [(subject_id, features)],
              labels := d.labels ++ [(subject_id, label)],
              classes := d.classes ++ [(subject_id, class_id)],
              dtype := some features.ptype,
              num_features := features.len }, Option.none)
  else if d.num_features ≠ features.len then
    (d, some (PyError.dimMismatch features.len d.num_features))
  else
    match d.dtype with
    | Option.none => (d, some PyError.attrError)
    | some t =>
      if features.ptype.isinstanceOf t then
        ({ d with data := d.data ++ [(subject_id, features)],
                  labels := d.labels ++ [(subject_id, label)],
                  classes := d.classes ++ [(subject_id, class_id)] }, Option.none)
      else (d, some (PyError.typeMismatch t))

/-- The `data` property setter.  `isDict` is `isinstance(values, dict)`.
The `self.__labels is not None` guard is always true in reachable states
(the labels dict is initialised by `__init__` and only ever replaced by a
dict), so the size check is against `len(self.__labels)`. -/
def MLDataset.set_data (d : MLDataset) (isDict : Bool)
    (values : OMap Features) : MLDataset × Option PyError :=
  if isDict then
    if d.labels.length ≠ values.length then
      (d, some PyError.sizeMismatchLabels)
    else if values.length < 1 then
      (d, some PyError.atLeastOneSample)
    else ({ d with data := values }, Option.none)
  else (d, some PyError.notADict)

/-- The `labels` property setter (size check against `len(self.__data)`). -/
def MLDataset.set_labels (d : MLDataset) (isDict : Bool)
    (values : OMap Value) : MLDataset × Option PyError :=
  if isDict then
    if d.data.length ≠ values.length then
      (d, some PyError.sizeMismatchData)
    else ({ d with labels := values }, Option.none)
  else (d, some PyError.notADict)

/-- `add_classes(classes)`: asserts dict-hood, size == `num_samples`, and
every key already a sample id; then replaces the classes dict wholesale. -/
def MLDataset.add_classes (d : MLDataset) (isDict : Bool)
    (classes : OMap Value) : MLDataset × Option PyError :=
  if isDict then
    if classes.length = MLDataset.num_samples d then
      if (OMap.keys classes).all (fun k => (OMap.keys d.data).contains k) then
        ({ d with classes := classes }, Option.none)
      else (d, some PyError.unknownKeys)
    else (d, some PyError.sizeMismatchClasses)
  else (d, some PyError.notADict)

/-- `__get_subset_from_dict(dict, subset)`: a fresh `OrderedDict` of the
entries whose key is in `subset`, in the dict's own iteration order. -/
def get_subset_from_dict {α : Type} (m : OMap α) (subset : List String) : OMap α :=
  m.filter (fun kv => subset.contains kv.1)

/-- `get_subset(subset_ids)`.  The `Bool` is `true` iff the
soft-fail warning was emitted.  The nonempty branch builds three fresh
`OrderedDict`s, bulk-constructs a child dataset (so `type(data)` there is
`OrderedDict`), and appends the derivation note to its description through
the description setter (which raises on an empty string). -/
def MLDataset.get_subset (d : MLDataset) (subset_ids : List String) :
    Except PyError (Bool × MLDataset) :=
  if 0 < (subset_ids.filter (fun k => OMap.hasKey d.data k)).length then
    match MLDataset.bulkInit PyType.odict
        (get_subset_from_dict d.data subset_ids)
        (get_subset_from_dict d.labels subset_ids)
        (get_subset_from_dict d.classes subset_ids) "" with
    | Except.error e => Except.error e
    | Except.ok sub =>
      if sub.description ++ "\n Subset derived from: " ++ d.description = "" then
        Except.error PyError.emptyDescription
      else
        Except.ok (false,
          { sub with description :=
              sub.description ++ "\n Subset derived from: " ++ d.description })
  else
    Except.ok (true, MLDataset.empty)

/-- `class_set` property: `set(self.__classes.values())`. -/
def MLDataset.class_set (d : MLDataset) : List Value := (OMap.vals d.classes).dedup

/-- `__label_set` property: `set(self.labels)` where `labels` is the list
of label values. -/
def MLDataset.label_set (d : MLDataset) : List Value := (OMap.vals d.labels).dedup

/-- `num_classes` property: `len(self.__label_set)` — computed from label
values, not class ids. -/
def MLDataset.num_classes (d : MLDataset) : Nat := (MLDataset.label_set d).length

/-- `get_class(class_id)`: membership test against `class_set`, then the
ids of the samples carrying that class, in the classes dict's iteration
order, passed to `get_subset`. -/
def MLDataset.get_class (d : MLDataset) (class_id : Value) :
    Except PyError (Bool × MLDataset) :=
  if (MLDataset.class_set d).contains class_id then
    MLDataset.get_subset d
      (OMap.keys (d.classes.filter (fun kv => kv.2 == class_id)))
  else Except.error (PyError.unknownClass class_id)

/-- `class_sizes` property: `Counter(self.classes)` — each distinct class
value with its multiplicity, in first-occurrence order. -/
def MLDataset.class_sizes (d : MLDataset) : List (Value × Nat) :=
  ((OMap.vals d.classes).dedup).map
    (fun v => (v, (OMap.vals d.classes).count v))

/-- Python `len(v)`: defined for strings, a `TypeError` otherwise. -/
def pyLen : Value → Except PyError Nat
  | Value.str s => Except.ok s.length
  | v => Except.error (PyError.noLen v)

/-- Python `str(v)`. -/
def pyStr : Value → String
  | Value.int i => toString i
  | Value.str s => s
  | Value.noneV => "None"

/-- The `{:>{w}}` right-aligned format of `__str__`. -/
def rightAlign (s : String) (width : Nat) : String :=
  String.mk (List.replicate (width - s.length) ' ') ++ s

/-- Python `max(list)`: raises `ValueError` on an empty list. -/
def listMax : List Nat → Except PyError Nat
  | [] => Except.error PyError.emptyMax
  | n :: rest => Except.ok (rest.foldl Nat.max n)

/-- `__str__`: description line, the counts line, then one right-aligned
line per class id.  The width is `max([len(cls) for cls in class_ids])`:
the comprehension evaluates `len` on every class id (a `TypeError` for a
class id with no length), then `max` raises `ValueError` if the class list
is empty. -/
def MLDataset.toText (d : MLDataset) : Except PyError String :=
  match (MLDataset.class_sizes d).map Prod.fst |>.mapM pyLen with
  | Except.error e => Except.error e
  | Except.ok widths =>
    match listMax widths with
    | Except.error e => Except.error e
    | Except.ok max_width =>
      Except.ok (String.intercalate "\n"
        ([d.description,
          toString (MLDataset.num_samples d) ++ " samples and " ++
            toString d.num_features ++ " features."] ++
         (MLDataset.class_sizes d).map (fun p =>
           "Class " ++ rightAlign (pyStr p.1) max_width ++ " : " ++
             toString p.2 ++ " samples.")))

/-! ## Invariants and helpers -/

/-- The three private dicts have equal sizes. -/
def sizesEq (d : MLDataset) : Prop :=
  d.data.length = d.labels.length ∧ d.data.length = d.classes.length

/-- The three private dicts have equal key sets. -/
def keysEq (d : MLDataset) : Prop :=
  setEqB (OMap.keys d.data) (OMap.keys d.labels) = true ∧
  setEqB (OMap.keys d.data) (OMap.keys d.classes) = true

/-- Keys are unique within each dict (automatic for Python dicts). -/
def nodupKeys (d : MLDataset) : Prop :=
  (OMap.keys d.data).Nodup ∧ (OMap.keys d.labels).Nodup ∧
  (OMap.keys d.classes).Nodup

/-- Every stored feature vector has the cached dimensionality. -/
def uniformDims (d : MLDataset) : Prop :=
  ∀ kv ∈ d.data, kv.2.vals.length = d.num_features

/-- Structural invariant of a reachable dataset. -/
def DSInv (d : MLDataset) : Prop :=
  nodupKeys d ∧ sizesEq d ∧ keysEq d ∧ uniformDims d

/-- The dataset produced by a `get_subset`/`get_class` call (the empty
dataset if the call raised). -/
def subOf (r : Except PyError (Bool × MLDataset)) : MLDataset :=
  match r with
  | Except.ok p => p.2
  | Except.error _ => MLDataset.empty

/-- Whether a `get_subset`/`get_class` call emitted the soft-fail warning. -/
def warnOf (r : Except PyError (Bool × MLDataset)) : Bool :=
  match r with
  | Except.ok p => p.1
  | Except.error _ => false

/-! ## Object-identity model for subset independence

`__get_subset_from_dict` builds brand-new `OrderedDict` objects via a
generator expression; the child dataset returned by `get_subset` therefore
references three freshly allocated mappings, never the parent's.  The
store below makes that allocation explicit so that non-aliasing is a
provable statement: mutating any of the child's mapping objects leaves
every mapping object of the parent untouched. -/

/-- A heap-allocated mapping object (feature dict or value dict). -/
inductive MapObj
  | fmap (m : OMap Features)
  | vmap (m : OMap Value)
  deriving DecidableEq, Repr

/-- The object heap: mapping objects addressed by allocation index. -/
abbrev Store := List MapObj

def Store.getF (st : Store) (i : Nat) : OMap Features :=
  match st[i]? with
  | some (MapObj.fmap m) => m
  | _ => []

def Store.getV (st : Store) (i : Nat) : OMap Value :=
  match st[i]? with
  | some (MapObj.vmap m) => m
  | _ => []

/-- A dataset's references to its three mapping objects. -/
structure DSRef where
  dref : Nat
  lref : Nat
  cref : Nat
  deriving DecidableEq, Repr

def DSRef.refs (r : DSRef) : List Nat := [r.dref, r.lref, r.cref]

/-- The allocation effect of the nonempty branch of `get_subset`: three
fresh `OrderedDict`s holding the restrictions of the parent's mappings,
appended to the heap; the child references only those. -/
def get_subset_alloc (st : Store) (p : DSRef) (ids : List String) :
    Store × DSRef :=
  (st ++ [MapObj.fmap (get_subset_from_dict (Store.getF st p.dref) ids),
          MapObj.vmap (get_subset_from_dict (Store.getV st p.lref) ids),
          MapObj.vmap (get_subset_from_dict (Store.getV st p.cref) ids)],
   { dref := st.length, lref := st.length + 1, cref := st.length + 2 })

/-- The three mapping objects a dataset reference currently denotes. -/
def readBack (st : Store) (p : DSRef) : OMap Features × OMap Value × OMap Value :=
  (Store.getF st p.dref, Store.getV st p.lref, Store.getV st p.cref)

instance {ε α : Type} [DecidableEq ε] [DecidableEq α] :
    DecidableEq (Except ε α) := fun a b =>
  match a, b with
  | Except.error e1, Except.error e2 => decidable_of_iff (e1 = e2) (by simp)
  | Except.ok x, Except.ok y => decidable_of_iff (x = y) (by simp)
  | Except.error _, Except.ok _ => isFalse (fun hc => Except.noConfusion hc)
  | Except.ok _, Except.error _ => isFalse (fun hc => Except.noConfusion hc)

instance {α : Type} [DecidableEq α] (l1 l2 : List α) : Decidable (l1.Perm l2) :=
  decidable_of_iff (l1.isPerm l2 = true) List.isPerm_iff

instance (d : MLDataset) : Decidable (sizesEq d) := by
  unfold sizesEq
  infer_instance

instance (d : MLDataset) : Decidable (keysEq d) := by
  unfold keysEq
  infer_instance

instance (d : MLDataset) : Decidable (nodupKeys d) := by
  unfold nodupKeys
  infer_instance

instance (d : MLDataset) : Decidable (uniformDims d) := by
  unfold uniformDims
  infer_instance

instance (d : MLDataset) : Decidable (DSInv d) := by
  unfold DSInv
  infer_instance

/-! ## Concrete objects used in witnesses and counterexamples -/

/-- A two-element `list` feature vector `[1, 2]`. -/
def exFL12 : Features := { ptype := PyType.pyList, vals := [1, 2] }

/-- A two-element `list` feature vector `[3, 4]`. -/
def exFL34 : Features := { ptype := PyType.pyList, vals := [3, 4] }

/-- A two-element feature vector held in a user-defined subclass of
`list` — `type(exFSub) ≠ list` but `isinstance(exFSub, list)`. -/
def exFSub : Features := { ptype := PyType.subList, vals := [5, 6] }

/-- A one-element `list` feature vector `[9]` (wrong dimensionality for
the two-feature example datasets). -/
def exFL9 : Features := { ptype := PyType.pyList, vals := [9] }

/-- A one-sample dataset as built by `add_sample('a', [1,2], 1, 'x')`. -/
def exD1 : MLDataset :=
  { data := [("a", exFL12)], labels := [("a", Value.int 1)],
    classes := [("a", Value.str "x")], num_features := 2,
    dtype := some PyType.pyList, description := "" }

/-- The three-sample example of the spec: `data={s1:[1,1],s2:[2,2],s3:[3,3]}`,
`labels={s1:0,s2:1,s3:0}`, `classes={s1:'x',s2:'y',s3:'x'}`. -/
def exD3 : MLDataset :=
  { data := [("s1", { ptype := PyType.pyList, vals := [1, 1] }),
             ("s2", { ptype := PyType.pyList, vals := [2, 2] }),
             ("s3", { ptype := PyType.pyList, vals := [3, 3] })],
    labels := [("s1", Value.int 0), ("s2", Value.int 1), ("s3", Value.int 0)],
    classes := [("s1", Value.str "x"), ("s2", Value.str "y"), ("s3", Value.str "x")],
    num_features := 2, dtype := some PyType.pyList, description := "ds" }

/-- The dataset the bulk constructor builds from `{s1: [1,2]}` dicts (note
`dtype` holds the type of the *data dict*, per the source). -/
def exC2D : MLDataset :=
  { data := [("s1", exFL12)], labels := [("s1", Value.int 0)],
    classes := [("s1", Value.str "x")], num_features := 2,
    dtype := some PyType.pyDict, description := "" }

/-- Two samples with identical labels but distinct class ids. -/
def exC8D : MLDataset :=
  { data := [("a", exFL12), ("b", exFL34)],
    labels := [("a", Value.int 0), ("b", Value.int 0)],
    classes := [("a", Value.str "x"), ("b", Value.str "y")],
    num_features := 2, dtype := some PyType.pyList, description := "" }

/-- A dataset whose single class id is the integer `1` (class ids are
opaque comparable values per the data model). -/
def exC9int : MLDataset :=
  { data := [("a", exFL12)], labels := [("a", Value.int 0)],
    classes := [("a", Value.int 1)], num_features := 2,
    dtype := some PyType.pyList, description := "" }

/-- A dataset on which `__str__` succeeds: nonempty, string class ids. -/
def exC9ok : MLDataset :=
  { data := [("a", exFL12), ("b", exFL34)],
    labels := [("a", Value.int 0), ("b", Value.int 1)],
    classes := [("a", Value.str "x"), ("b", Value.str "x")],
    num_features := 2, dtype := some PyType.pyList, description := "ds" }

/-- A heap holding `exD3`'s three mapping objects at addresses 0, 1, 2. -/
def exStore : Store :=
  [MapObj.fmap exD3.data, MapObj.vmap exD3.labels, MapObj.vmap exD3.classes]

/-- `exD3`'s references into `exStore`. -/
def exRef : DSRef := { dref := 0, lref := 1, cref := 2 }

/-! ## Basic lemmas -/

theorem setEqB_iff (a b : List String) :
    setEqB a b = true ↔ ∀ x, x ∈ a ↔ x ∈ b := by
  simp only [setEqB, Bool.and_eq_true, List.all_eq_true,
    List.contains_iff_exists_mem_beq, beq_iff_eq]
  constructor
  · rintro ⟨h1, h2⟩ x
    constructor
    · intro hx
      obtain ⟨y, hy, rfl⟩ := h1 x hx
      exact hy
    · intro hx
      obtain ⟨y, hy, rfl⟩ := h2 x hx
      exact hy
  · intro h
    exact ⟨fun x hx => ⟨x, (h x).1 hx, rfl⟩,
           fun x hx => ⟨x, (h x).2 hx, rfl⟩⟩

theorem contains_iff_mem' {α : Type} [BEq α] [LawfulBEq α] (l : List α) (x : α) :
    l.contains x = true ↔ x ∈ l := by
  simp [List.contains_iff_exists_mem_beq, beq_iff_eq]

theorem keys_filter {α : Type} (m : OMap α) (p : String → Bool) :
    OMap.keys (m.filter (fun kv => p kv.1)) = (OMap.keys m).filter p := by
  induction m with
  | nil => rfl
  | cons kv rest ih =>
    by_cases h : p kv.1 = true
    · simp [OMap.keys, List.filter_cons, h] at ih ⊢
      exact ih
    · simp only [Bool.not_eq_true] at h
      simp [OMap.keys, List.filter_cons, h] at ih ⊢
      exact ih

theorem mem_keys {α : Type} (m : OMap α) (k : String) :
    k ∈ OMap.keys m ↔ ∃ v, (k, v) ∈ m := by
  simp only [OMap.keys, List.mem_map]
  constructor
  · rintro ⟨kv, hkv, rfl⟩
    exact ⟨kv.2, hkv⟩
  · rintro ⟨v, hv⟩
    exact ⟨(k, v), hv, rfl⟩

theorem lookup_eq_some_iff {α : Type} (m : OMap α)
    (h : (OMap.keys m).Nodup) (k : String) (v : α) :
    OMap.lookup m k = some v ↔ (k, v) ∈ m := by
  induction m with
  | nil => simp [OMap.lookup]
  | cons kv rest ih =>
    simp only [OMap.keys, List.map_cons, List.nodup_cons] at h
    by_cases hk : kv.1 = k
    · simp only [OMap.lookup, if_pos hk, Option.some_inj, List.mem_cons]
      constructor
      · rintro rfl
        exact Or.inl (by rw [← hk])
      · rintro (heq | hmem)
        · rw [← heq]
        · exact absurd ((mem_keys rest k).2 ⟨v, hmem⟩) (hk ▸ h.1)
    · simp only [OMap.lookup, if_neg hk, List.mem_cons]
      rw [ih h.2]
      constructor
      · exact Or.inr
      · rintro (heq | hmem)
        · exact absurd (congrArg Prod.fst heq).symm hk
        · exact hmem

theorem dedup_const {α : Type} [DecidableEq α] (l : List α) (n : α)
    (hall : ∀ x ∈ l, x = n) (hne : l ≠ []) : l.dedup = [n] := by
  induction l with
  | nil => exact absurd rfl hne
  | cons a rest ih =>
    have ha : a = n := hall a (List.mem_cons_self a rest)
    subst ha
    by_cases hr : rest = []
    · subst hr
      simp
    · have hmem : a ∈ rest := by
        match rest, hr with
        | x :: rest', _ =>
          have hx : x = a := hall x (by simp)
          rw [← hx]
          exact List.mem_cons_self x rest'
      rw [List.dedup_cons_of_mem hmem]
      exact ih (fun x hx => hall x (List.mem_cons_of_mem _ hx)) hr

theorem keys_perm_of_setEq (a b : List String) (ha : a.Nodup) (hb : b.Nodup)
    (h : setEqB a b = true) : a.Perm b :=
  (List.perm_ext_iff_of_nodup ha hb).2 ((setEqB_iff a b).1 h)

theorem bulkInit_ok_sizes_keys (t : PyType) (da : OMap Features)
    (la ca : OMap Value) (ds : String) (s : MLDataset)
    (h : MLDataset.bulkInit t da la ca ds = Except.ok s) :
    sizesEq s ∧ keysEq s := by
  unfold MLDataset.bulkInit at h
  by_cases h1 : da.length = la.length ∧ la.length = ca.length
  · rw [if_pos h1] at h
    by_cases h2 : setEqB (OMap.keys da) (OMap.keys la) = true ∧
        setEqB (OMap.keys la) (OMap.keys ca) = true
    · rw [if_pos h2] at h
      by_cases h3 : ((da.map (fun kv => kv.2.vals.length)).dedup).length = 1
      · rw [if_pos h3] at h
        cases h
        refine ⟨⟨h1.1, h1.1.trans h1.2⟩, h2.1, ?_⟩
        rw [setEqB_iff]
        intro x
        exact ((setEqB_iff _ _).1 h2.1 x).trans ((setEqB_iff _ _).1 h2.2 x)
      · rw [if_neg h3] at h
        cases h
    · rw [if_neg h2] at h
      cases h
  · rw [if_neg h1] at h
    cases h

theorem length_keys {α : Type} (m : OMap α) : (OMap.keys m).length = m.length :=
  List.length_map m Prod.fst

theorem filter_pairs_length {α : Type} (m : OMap α) (p : String → Bool) :
    (m.filter (fun kv => p kv.1)).length = ((OMap.keys m).filter p).length := by
  rw [← keys_filter, length_keys]

theorem filter_length_eq_of_perm {α β : Type} (m1 : OMap α) (m2 : OMap β)
    (p : String → Bool) (hperm : (OMap.keys m1).Perm (OMap.keys m2)) :
    (m1.filter (fun kv => p kv.1)).length = (m2.filter (fun kv => p kv.1)).length := by
  rw [filter_pairs_length, filter_pairs_length]
  exact (hperm.filter p).length_eq

theorem string_app_ne_empty (s : String) :
    "" ++ "\n Subset derived from: " ++ s ≠ "" := by
  intro h
  have hl := congrArg String.length h
  rw [String.length_append, String.length_append] at hl
  have h23 : ("\n Subset derived from: ").length = 23 := rfl
  have h0 : ("" : String).length = 0 := rfl
  rw [h23, h0] at hl
  omega

/-- Under the structural invariant, `get_subset` on a list of ids at least
one of which is an existing key succeeds without warning and returns the
bulk-constructed restriction of the three mappings, with the derivation
note appended to the (initially empty) description. -/
theorem get_subset_ok (d : MLDataset) (ids : List String) (hInv : DSInv d)
    (hx : 0 < (ids.filter (fun k => OMap.hasKey d.data k)).length) :
    d.get_subset ids =
      Except.ok (false,
        { data := get_subset_from_dict d.data ids,
          labels := get_subset_from_dict d.labels ids,
          classes := get_subset_from_dict d.classes ids,
          num_features :=
            (((get_subset_from_dict d.data ids).map
              (fun kv => kv.2.vals.length)).dedup).headD 0,
          dtype := some PyType.odict,
          description := "" ++ "\n Subset derived from: " ++ d.description }) := by
  obtain ⟨hnodup, hsizes, hkeysEq, hdims⟩ := hInv
  have hdl : (OMap.keys d.data).Perm (OMap.keys d.labels) :=
    keys_perm_of_setEq _ _ hnodup.1 hnodup.2.1 hkeysEq.1
  have hdc : (OMap.keys d.data).Perm (OMap.keys d.classes) :=
    keys_perm_of_setEq _ _ hnodup.1 hnodup.2.2 hkeysEq.2
  -- a surviving entry
  obtain ⟨k, hkmem⟩ := List.exists_mem_of_ne_nil _ (List.length_pos.1 hx)
  rw [List.mem_filter] at hkmem
  obtain ⟨hkids, hkdata⟩ := hkmem
  obtain ⟨v, hv⟩ := (mem_keys d.data k).1 ((contains_iff_mem' _ _).1 hkdata)
  have hsurv : (k, v) ∈ get_subset_from_dict d.data ids :=
    List.mem_filter.2 ⟨hv, (contains_iff_mem' _ _).2 hkids⟩
  -- the three bulk-constructor checks
  have hlen : (get_subset_from_dict d.data ids).length =
      (get_subset_from_dict d.labels ids).length ∧
      (get_subset_from_dict d.labels ids).length =
      (get_subset_from_dict d.classes ids).length := by
    refine ⟨filter_length_eq_of_perm _ _ _ hdl, ?_⟩
    exact filter_length_eq_of_perm _ _ _ (hdl.symm.trans hdc)
  have hmemIff : ∀ x, (x ∈ OMap.keys d.data ↔ x ∈ OMap.keys d.labels) ∧
      (x ∈ OMap.keys d.data ↔ x ∈ OMap.keys d.classes) := fun x =>
    ⟨(setEqB_iff _ _).1 hkeysEq.1 x, (setEqB_iff _ _).1 hkeysEq.2 x⟩
  have hsets : setEqB (OMap.keys (get_subset_from_dict d.data ids))
        (OMap.keys (get_subset_from_dict d.labels ids)) = true ∧
      setEqB (OMap.keys (get_subset_from_dict d.labels ids))
        (OMap.keys (get_subset_from_dict d.classes ids)) = true := by
    rw [setEqB_iff, setEqB_iff]
    unfold get_subset_from_dict
    rw [keys_filter, keys_filter, keys_filter]
    constructor
    · intro x
      rw [List.mem_filter, List.mem_filter]
      exact and_congr_left (fun _ => (hmemIff x).1)
    · intro x
      rw [List.mem_filter, List.mem_filter]
      exact and_congr_left (fun _ => ((hmemIff x).1.symm.trans (hmemIff x).2))
  have hdedup : ((get_subset_from_dict d.data ids).map
      (fun kv => kv.2.vals.length)).dedup = [d.num_features] := by
    refine dedup_const _ _ ?_ ?_
    · intro x hxm
      rw [List.mem_map] at hxm
      obtain ⟨kv, hkv, rfl⟩ := hxm
      exact hdims kv (List.mem_filter.1 hkv).1
    · exact List.ne_nil_of_mem (List.mem_map.2 ⟨(k, v), hsurv, rfl⟩)
  have hdim1 : (((get_subset_from_dict d.data ids).map
      (fun kv => kv.2.vals.length)).dedup).length = 1 := by
    rw [hdedup]
    rfl
  have hbulk : MLDataset.bulkInit PyType.odict
      (get_subset_from_dict d.data ids)
      (get_subset_from_dict d.labels ids)
      (get_subset_from_dict d.classes ids) "" =
      Except.ok
        { data := get_subset_from_dict d.data ids,
          labels := get_subset_from_dict d.labels ids,
          classes := get_subset_from_dict d.classes ids,
          num_features :=
            (((get_subset_from_dict d.data ids).map
              (fun kv => kv.2.vals.length)).dedup).headD 0,
          dtype := some PyType.odict,
          description := "" } := by
    unfold MLDataset.bulkInit
    rw [if_pos hlen, if_pos hsets, if_pos hdim1]
  unfold MLDataset.get_subset
  rw [if_pos hx, hbulk]
  simp only
  rw [if_neg (string_app_ne_empty d.description)]

/-- Under the structural invariant, the subset's cached dimensionality is
the parent's. -/
theorem get_subset_ok_num_features (d : MLDataset) (ids : List String)
    (hInv : DSInv d)
    (hx : 0 < (ids.filter (fun k => OMap.hasKey d.data k)).length) :
    (subOf (d.get_subset ids)).num_features = d.num_features := by
  rw [get_subset_ok d ids hInv hx]
  obtain ⟨hnodup, hsizes, hkeysEq, hdims⟩ := hInv
  obtain ⟨k, hkmem⟩ := List.exists_mem_of_ne_nil _ (List.length_pos.1 hx)
  rw [List.mem_filter] at hkmem
  obtain ⟨hkids, hkdata⟩ := hkmem
  obtain ⟨v, hv⟩ := (mem_keys d.data k).1 ((contains_iff_mem' _ _).1 hkdata)
  have hsurv : (k, v) ∈ get_subset_from_dict d.data ids :=
    List.mem_filter.2 ⟨hv, (contains_iff_mem' _ _).2 hkids⟩
  have hdedup : ((get_subset_from_dict d.data ids).map
      (fun kv => kv.2.vals.length)).dedup = [d.num_features] := by
    refine dedup_const _ _ ?_ ?_
    · intro x hxm
      rw [List.mem_map] at hxm
      obtain ⟨kv, hkv, rfl⟩ := hxm
      exact hdims kv (List.mem_filter.1 hkv).1
    · exact List.ne_nil_of_mem (List.mem_map.2 ⟨(k, v), hsurv, rfl⟩)
  simp [subOf, hdedup]

theorem bulkInit_ok_fields (t : PyType) (da : OMap Features)
    (la ca : OMap Value) (ds : String) (s : MLDataset)
    (h : MLDataset.bulkInit t da la ca ds = Except.ok s) :
    s.data = da ∧ s.labels = la ∧ s.classes = ca ∧
    s.dtype = some t ∧ s.description = ds := by
  unfold MLDataset.bulkInit at h
  by_cases h1 : da.length = la.length ∧ la.length = ca.length
  · rw [if_pos h1] at h
    by_cases h2 : setEqB (OMap.keys da) (OMap.keys la) = true ∧
        setEqB (OMap.keys la) (OMap.keys ca) = true
    · rw [if_pos h2] at h
      by_cases h3 : ((da.map (fun kv => kv.2.vals.length)).dedup).length = 1
      · rw [if_pos h3] at h
        cases h
        exact ⟨rfl, rfl, rfl, rfl, rfl⟩
      · rw [if_neg h3] at h
        cases h
    · rw [if_neg h2] at h
      cases h
  · rw [if_neg h1] at h
    cases h

/-- The soft-fail branch of `get_subset`: no requested id is an existing
key, so the warning fires and a fresh empty dataset is returned. -/
theorem get_subset_warn (d : MLDataset) (ids : List String)
    (h : ∀ k ∈ ids, OMap.hasKey d.data k = false) :
    d.get_subset ids = Except.ok (true, MLDataset.empty) := by
  have hnil : ids.filter (fun k => OMap.hasKey d.data k) = [] := by
    rw [List.filter_eq_nil_iff]
    intro k hk
    simp [h k hk]
  unfold MLDataset.get_subset
  rw [if_neg]
  rw [hnil]
  simp

theorem get_subset_eq_of_bulk (d : MLDataset) (ids : List String)
    (hx : 0 < (ids.filter (fun k => OMap.hasKey d.data k)).length)
    (sub : MLDataset)
    (hb : MLDataset.bulkInit PyType.odict (get_subset_from_dict d.data ids)
      (get_subset_from_dict d.labels ids)
      (get_subset_from_dict d.classes ids) "" = Except.ok sub) :
    d.get_subset ids = Except.ok (false,
      { sub with description :=
          sub.description ++ "\n Subset derived from: " ++ d.description }) := by
  have hds : sub.description = "" :=
    (bulkInit_ok_fields _ _ _ _ _ _ hb).2.2.2.2
  unfold MLDataset.get_subset
  rw [if_pos hx, hb]
  simp only
  rw [hds]
  rw [if_neg (string_app_ne_empty d.description)]

theorem get_subset_eq_of_bulk_err (d : MLDataset) (ids : List String)
    (hx : 0 < (ids.filter (fun k => OMap.hasKey d.data k)).length)
    (e : PyError)
    (hb : MLDataset.bulkInit PyType.odict (get_subset_from_dict d.data ids)
      (get_subset_from_dict d.labels ids)
      (get_subset_from_dict d.classes ids) "" = Except.error e) :
    d.get_subset ids = Except.error e := by
  unfold MLDataset.get_subset
  rw [if_pos hx, hb]

/-- Both success branches of `add_sample` append the new entry at the end
of each of the three dicts. -/
theorem add_sample_ok_shape (d : MLDataset) (sid : String) (f : Features)
    (lab cid : Value) (h : (d.add_sample sid f lab cid).2 = Option.none) :
    (d.add_sample sid f lab cid).1.data = d.data ++ [(sid, f)] ∧
    (d.add_sample sid f lab cid).1.labels = d.labels ++ [(sid, lab)] ∧
    (d.add_sample sid f lab cid).1.classes = d.classes ++ [(sid, cid)] := by
  by_cases h1 : OMap.hasKey d.data sid = true
  · have he : d.add_sample sid f lab cid = (d, some (PyError.duplicateKey sid)) := by
      unfold MLDataset.add_sample
      rw [if_pos h1]
    rw [he] at h
    cases h
  · by_cases h2 : MLDataset.num_samples d ≤ 0
    · have he : d.add_sample sid f lab cid =
          ({ d with data := d.data ++ [(sid, f)],
                    labels := d.labels ++ [(sid, lab)],
                    classes := d.classes ++ [(sid, cid)],
                    dtype := some f.ptype,
                    num_features := f.len }, Option.none) := by
        unfold MLDataset.add_sample
        rw [if_neg h1, if_pos h2]
      rw [he]
      exact ⟨rfl, rfl, rfl⟩
    · by_cases h3 : d.num_features ≠ f.len
      · have he : d.add_sample sid f lab cid =
            (d, some (PyError.dimMismatch f.len d.num_features)) := by
          unfold MLDataset.add_sample
          rw [if_neg h1, if_neg h2, if_pos h3]
        rw [he] at h
        cases h
      · cases hdt : d.dtype with
        | none =>
          have he : d.add_sample sid f lab cid = (d, some PyError.attrError) := by
            unfold MLDataset.add_sample
            rw [if_neg h1, if_neg h2, if_neg h3, hdt]
          rw [he] at h
          cases h
        | some t =>
          have hred : d.add_sample sid f lab cid =
              if f.ptype.isinstanceOf t = true then
                ({ d with data := d.data ++ [(sid, f)],
                          labels := d.labels ++ [(sid, lab)],
                          classes := d.classes ++ [(sid, cid)] }, Option.none)
              else (d, some (PyError.typeMismatch t)) := by
            unfold MLDataset.add_sample
            rw [if_neg h1, if_neg h2, if_neg h3, hdt]
          by_cases h4 : f.ptype.isinstanceOf t = true
          · rw [hred, if_pos h4]
            exact ⟨rfl, rfl, rfl⟩
          · rw [hred, if_neg h4] at h
            cases h

/-- Two duplicate-free key lists, one containing the other, of equal
length, have the same members. -/
theorem mem_iff_of_subset_of_len (a b : List String) (ha : a.Nodup)
    (hb : b.Nodup) (hsub : ∀ x ∈ a, x ∈ b) (hlen : a.length = b.length) :
    ∀ x, x ∈ a ↔ x ∈ b := by
  have hfs : a.toFinset = b.toFinset := by
    apply Finset.eq_of_subset_of_card_le
    · intro x hx
      rw [List.mem_toFinset] at hx ⊢
      exact hsub x hx
    · rw [List.toFinset_card_of_nodup ha, List.toFinset_card_of_nodup hb]
      exact Nat.le_of_eq hlen.symm
  intro x
  rw [← List.mem_toFinset, ← List.mem_toFinset (l := b), hfs]

theorem keys_append {α : Type} (m : OMap α) (s : String) (v : α) :
    OMap.keys (m ++ [(s, v)]) = OMap.keys m ++ [s] := by
  simp [OMap.keys]

theorem setEqB_append (a b : List String) (s : String) (h : setEqB a b = true) :
    setEqB (a ++ [s]) (b ++ [s]) = true := by
  rw [setEqB_iff] at h ⊢
  intro x
  simp only [List.mem_append, List.mem_singleton]
  exact or_congr_left (h x)

/-! ## Claims -/

/-- C4: for every dataset and every sample id already present in the data
dict, `add_sample` with that id raises the duplicate-key `ValueError`, and
the returned state (all three dicts, hence `num_samples`) is exactly the
receiver, unchanged. -/
theorem C4_duplicate_add_sample (d : MLDataset) (sid : String) (f : Features)
    (lab cid : Value) (h : OMap.hasKey d.data sid = true) :
    d.add_sample sid f lab cid = (d, some (PyError.duplicateKey sid)) := by
  unfold MLDataset.add_sample
  rw [if_pos h]

theorem C4_duplicate_add_sample_witness :
    exD1.add_sample "a" exFL34 (Value.int 2) (Value.str "y")
      = (exD1, some (PyError.duplicateKey "a")) :=
  C4_duplicate_add_sample exD1 "a" exFL34 (Value.int 2) (Value.str "y") (by decide)

/-- C6: `get_subset` on an empty list of ids, or on ids disjoint from the
existing keys, emits the warning and returns a fresh empty dataset with
`num_samples = 0`; it never raises. -/
theorem C6_soft_fail (d : MLDataset) (ids : List String)
    (h : ∀ k ∈ ids, OMap.hasKey d.data k = false) :
    d.get_subset ids = Except.ok (true, MLDataset.empty) ∧
    MLDataset.num_samples MLDataset.empty = 0 :=
  ⟨get_subset_warn d ids h, rfl⟩

theorem C6_soft_fail_witness :
    (exD3.get_subset [] = Except.ok (true, MLDataset.empty) ∧
     MLDataset.num_samples MLDataset.empty = 0) ∧
    (exD3.get_subset ["zz", "yy"] = Except.ok (true, MLDataset.empty) ∧
     MLDataset.num_samples MLDataset.empty = 0) :=
  ⟨C6_soft_fail exD3 [] (by decide), C6_soft_fail exD3 ["zz", "yy"] (by decide)⟩

/-- C10: on a dataset with zero samples every `data` setter call raises —
schema error for a non-dict, size error against the empty labels dict for
a dict with one or more entries, at-least-one-sample error for an empty
dict — and the state comes back unchanged, so the feature dict of an
empty dataset can never be populated through the setter. -/
theorem C10_setter_on_empty (d : MLDataset) (b : Bool) (values : OMap Features)
    (h0 : MLDataset.num_samples d = 0) (hs : sizesEq d) :
    (b = false → d.set_data b values = (d, some PyError.notADict))
  ∧ (b = true → 0 < values.length →
      d.set_data b values = (d, some PyError.sizeMismatchLabels))
  ∧ (b = true → values.length = 0 →
      d.set_data b values = (d, some PyError.atLeastOneSample))
  ∧ ((d.set_data b values).2).isSome = true := by
  have hl : d.labels.length = 0 := by
    have h1 := hs.1
    unfold MLDataset.num_samples at h0
    omega
  refine ⟨?_, ?_, ?_, ?_⟩
  · rintro rfl
    unfold MLDataset.set_data
    rw [if_neg (by simp)]
  · rintro rfl hv
    have hne : d.labels.length ≠ values.length := by omega
    unfold MLDataset.set_data
    rw [if_pos rfl, if_pos hne]
  · rintro rfl hv
    have hcond : ¬(d.labels.length ≠ values.length) := by omega
    unfold MLDataset.set_data
    rw [if_pos rfl, if_neg hcond, if_pos (by omega)]
  · cases b with
    | false =>
      unfold MLDataset.set_data
      rw [if_neg (by simp)]
      rfl
    | true =>
      unfold MLDataset.set_data
      by_cases hv : d.labels.length ≠ values.length
      · rw [if_pos rfl, if_pos hv]
        rfl
      · rw [if_pos rfl, if_neg hv, if_pos (by omega)]
        rfl

theorem C10_setter_on_empty_witness :
    MLDataset.empty.set_data true [("z", exFL12)]
      = (MLDataset.empty, some PyError.sizeMismatchLabels) ∧
    MLDataset.empty.set_data true []
      = (MLDataset.empty, some PyError.atLeastOneSample) ∧
    MLDataset.empty.set_data false [("z", exFL12)]
      = (MLDataset.empty, some PyError.notADict) :=
  ⟨(C10_setter_on_empty MLDataset.empty true [("z", exFL12)] rfl
      ⟨rfl, rfl⟩).2.1 rfl (by decide),
   (C10_setter_on_empty MLDataset.empty true [] rfl ⟨rfl, rfl⟩).2.2.1 rfl rfl,
   (C10_setter_on_empty MLDataset.empty false [("z", exFL12)] rfl
      ⟨rfl, rfl⟩).1 rfl⟩

/-- C8: `num_classes` is the number of distinct label values — it is
computed from the labels dict, not from class ids — and it can differ
from the size of `class_set`: on a two-sample dataset with one distinct
label but two distinct class ids, `num_classes = 1` while the class set
has two elements. -/
theorem C8_num_classes_from_labels :
    (∀ d : MLDataset,
      MLDataset.num_classes d = ((OMap.vals d.labels).toFinset).card)
  ∧ MLDataset.num_classes exC8D = 1
  ∧ (MLDataset.class_set exC8D).length = 2
  ∧ MLDataset.num_classes exC8D ≠ (MLDataset.class_set exC8D).length := by
  refine ⟨?_, by decide, by decide, by decide⟩
  intro d
  unfold MLDataset.num_classes MLDataset.label_set
  exact (List.card_toFinset _).symm

/-- C9 (code bug): the textual summary raises on the empty dataset
(`max()` of the empty list of class-label widths is a `ValueError`) and on
any dataset whose class ids have no `len()` (a `TypeError`, e.g. integer
class ids); on a nonempty dataset with string class ids it succeeds and
reflects `num_samples`, `num_features` and the per-class counts. -/
theorem C9_summary_crashes :
    MLDataset.toText MLDataset.empty = Except.error PyError.emptyMax
  ∧ MLDataset.toText exC9int = Except.error (PyError.noLen (Value.int 1))
  ∧ MLDataset.toText exC9ok =
      Except.ok "ds\n2 samples and 2 features.\nClass x : 2 samples." := by
  refine ⟨rfl, rfl, by decide⟩

/-- C2 (code bug): the bulk constructor records `elementType`
(`self.__dtype`) as `type(data)` — the class of the incoming mapping —
rather than the type of the first feature vector, so a later `add_sample`
with a feature container of the same type as the stored vectors fails the
`isinstance` check against the dict type. -/
theorem C2_elementType_is_dict_type :
    MLDataset.bulkInit PyType.pyDict [("s1", exFL12)] [("s1", Value.int 0)]
        [("s1", Value.str "x")] "" = Except.ok exC2D
  ∧ exC2D.dtype = some PyType.pyDict
  ∧ exC2D.dtype ≠ some exFL12.ptype
  ∧ exC2D.add_sample "s2" exFL34 (Value.int 1) (Value.str "y")
      = (exC2D, some (PyError.typeMismatch PyType.pyDict)) := by decide

/-- C1 (counterexample): the `data` setter accepts any same-size dict, so
on a one-sample dataset keyed by `"a"` it installs a dict keyed by `"b"`
without raising, after which the three dicts no longer have identical key
sets (sizes remain equal). -/
theorem C1_setter_breaks_key_sets :
    exD1.set_data true [("b", exFL34)]
      = ({ exD1 with data := [("b", exFL34)] }, Option.none)
  ∧ ¬ keysEq { exD1 with data := [("b", exFL34)] }
  ∧ sizesEq { exD1 with data := [("b", exFL34)] } := by
  refine ⟨by decide, ?_, by decide⟩
  intro hk
  exact absurd hk.1 (by decide)

/-- C1 (amended): starting from a state with duplicate-free keys, equal
sizes and equal key sets, every public operation that completes without
raising leaves the three dicts with identical sizes; every operation
other than the `data` and `labels` setters (which check sizes only) also
leaves identical key sets.  Covers empty construction, bulk construction,
`add_sample`, both wholesale setters, `add_classes`, `get_subset` and
`get_class`. -/
theorem C1_invariants (d : MLDataset)
    (hn : nodupKeys d) (hs : sizesEq d) (hk : keysEq d) :
    (∀ sid f lab cid, (d.add_sample sid f lab cid).2 = Option.none →
        sizesEq (d.add_sample sid f lab cid).1 ∧
        keysEq (d.add_sample sid f lab cid).1)
  ∧ (∀ b vs, (d.set_data b vs).2 = Option.none →
        sizesEq (d.set_data b vs).1)
  ∧ (∀ b vs, (d.set_labels b vs).2 = Option.none →
        sizesEq (d.set_labels b vs).1)
  ∧ (∀ b cs, (OMap.keys cs).Nodup → (d.add_classes b cs).2 = Option.none →
        sizesEq (d.add_classes b cs).1 ∧ keysEq (d.add_classes b cs).1)
  ∧ (∀ t da la ca ds s, MLDataset.bulkInit t da la ca ds = Except.ok s →
        sizesEq s ∧ keysEq s)
  ∧ (∀ ids w s, d.get_subset ids = Except.ok (w, s) → sizesEq s ∧ keysEq s)
  ∧ (∀ c w s, d.get_class c = Except.ok (w, s) → sizesEq s ∧ keysEq s)
  ∧ (sizesEq MLDataset.empty ∧ keysEq MLDataset.empty) := by
  have hgs : ∀ (ids : List String) (w : Bool) (s : MLDataset),
      d.get_subset ids = Except.ok (w, s) → sizesEq s ∧ keysEq s := by
    intro ids w s hok
    by_cases hx : 0 < (ids.filter (fun k => OMap.hasKey d.data k)).length
    · cases hb : MLDataset.bulkInit PyType.odict
          (get_subset_from_dict d.data ids)
          (get_subset_from_dict d.labels ids)
          (get_subset_from_dict d.classes ids) "" with
      | error e =>
        rw [get_subset_eq_of_bulk_err d ids hx e hb] at hok
        cases hok
      | ok sub =>
        rw [get_subset_eq_of_bulk d ids hx sub hb] at hok
        injection hok with hok2
        injection hok2 with hw hsx
        have hinv := bulkInit_ok_sizes_keys _ _ _ _ _ _ hb
        rw [← hsx]
        exact hinv
    · unfold MLDataset.get_subset at hok
      rw [if_neg hx] at hok
      injection hok with hok2
      injection hok2 with hw hsx
      rw [← hsx]
      exact ⟨⟨rfl, rfl⟩, ⟨rfl, rfl⟩⟩
  refine ⟨?_, ?_, ?_, ?_, ?_, hgs, ?_, ⟨rfl, rfl⟩, ⟨rfl, rfl⟩⟩
  · -- add_sample
    intro sid f lab cid hok
    obtain ⟨hda, hla, hca⟩ := add_sample_ok_shape d sid f lab cid hok
    have h1 := hs.1
    have h2 := hs.2
    constructor
    · constructor
      · rw [hda, hla]
        simp only [List.length_append, List.length_cons, List.length_nil]
        omega
      · rw [hda, hca]
        simp only [List.length_append, List.length_cons, List.length_nil]
        omega
    · constructor
      · rw [hda, hla, keys_append, keys_append]
        exact setEqB_append _ _ _ hk.1
      · rw [hda, hca, keys_append, keys_append]
        exact setEqB_append _ _ _ hk.2
  · -- data setter: sizes only
    intro b vs hok
    cases b with
    | false =>
      unfold MLDataset.set_data at hok
      rw [if_neg (by simp)] at hok
      cases hok
    | true =>
      by_cases hv : d.labels.length ≠ vs.length
      · have he : d.set_data true vs = (d, some PyError.sizeMismatchLabels) := by
          unfold MLDataset.set_data
          rw [if_pos rfl, if_pos hv]
        rw [he] at hok
        cases hok
      · by_cases hlt : vs.length < 1
        · have he : d.set_data true vs = (d, some PyError.atLeastOneSample) := by
            unfold MLDataset.set_data
            rw [if_pos rfl, if_neg hv, if_pos hlt]
          rw [he] at hok
          cases hok
        · have he : d.set_data true vs = ({ d with data := vs }, Option.none) := by
            unfold MLDataset.set_data
            rw [if_pos rfl, if_neg hv, if_neg hlt]
          rw [he]
          have h1 := hs.1
          have h2 := hs.2
          constructor
          · show vs.length = d.labels.length
            omega
          · show vs.length = d.classes.length
            omega
  · -- labels setter: sizes only
    intro b vs hok
    cases b with
    | false =>
      unfold MLDataset.set_labels at hok
      rw [if_neg (by simp)] at hok
      cases hok
    | true =>
      by_cases hv : d.data.length ≠ vs.length
      · have he : d.set_labels true vs = (d, some PyError.sizeMismatchData) := by
          unfold MLDataset.set_labels
          rw [if_pos rfl, if_pos hv]
        rw [he] at hok
        cases hok
      · have he : d.set_labels true vs = ({ d with labels := vs }, Option.none) := by
          unfold MLDataset.set_labels
          rw [if_pos rfl, if_neg hv]
        rw [he]
        have h2 := hs.2
        constructor
        · show d.data.length = vs.length
          omega
        · show d.data.length = d.classes.length
          omega
  · -- add_classes
    intro b cs hnd hok
    cases b with
    | false =>
      unfold MLDataset.add_classes at hok
      rw [if_neg (by simp)] at hok
      cases hok
    | true =>
      by_cases hlen : cs.length = MLDataset.num_samples d
      · by_cases hsub : (OMap.keys cs).all
            (fun k => (OMap.keys d.data).contains k) = true
        · have he : d.add_classes true cs = ({ d with classes := cs }, Option.none) := by
            unfold MLDataset.add_classes
            rw [if_pos rfl, if_pos hlen, if_pos hsub]
          rw [he]
          have hmm : ∀ x, x ∈ OMap.keys d.data ↔ x ∈ OMap.keys cs := by
            have hsub' : ∀ x ∈ OMap.keys cs, x ∈ OMap.keys d.data := by
              intro x hx
              exact (contains_iff_mem' _ _).1 ((List.all_eq_true.1 hsub) x hx)
            have hlen' : (OMap.keys cs).length = (OMap.keys d.data).length := by
              rw [length_keys, length_keys]
              exact hlen
            intro x
            exact (mem_iff_of_subset_of_len _ _ hnd hn.1 hsub' hlen' x).symm
          constructor
          · exact ⟨hs.1, hlen.symm⟩
          · refine ⟨hk.1, ?_⟩
            show setEqB (OMap.keys d.data) (OMap.keys cs) = true
            rw [setEqB_iff]
            exact hmm
        · have he : d.add_classes true cs = (d, some PyError.unknownKeys) := by
            unfold MLDataset.add_classes
            rw [if_pos rfl, if_pos hlen, if_neg hsub]
          rw [he] at hok
          cases hok
      · have he : d.add_classes true cs = (d, some PyError.sizeMismatchClasses) := by
          unfold MLDataset.add_classes
          rw [if_pos rfl, if_neg hlen]
        rw [he] at hok
        cases hok
  · -- bulk construction
    intro t da la ca ds s hok
    exact bulkInit_ok_sizes_keys t da la ca ds s hok
  · -- get_class delegates to get_subset
    intro c w s hok
    unfold MLDataset.get_class at hok
    by_cases hc : (MLDataset.class_set d).contains c = true
    · rw [if_pos hc] at hok
      exact hgs _ _ _ hok
    · rw [if_neg hc] at hok
      cases hok

theorem C1_invariants_witness :
    sizesEq (exD1.add_sample "b" exFL34 (Value.int 2) (Value.str "y")).1 ∧
    keysEq (exD1.add_sample "b" exFL34 (Value.int 2) (Value.str "y")).1 :=
  (C1_invariants exD1 (by decide) (by decide) (by decide)).1
    "b" exFL34 (Value.int 2) (Value.str "y") (by decide)

/-- C5 (counterexample): on a one-sample dataset whose established
`elementType` is `list`, `add_sample` accepts a feature container of a
strict subclass of `list` — `type(features)` differs from `elementType`,
the dimensionality matches, the id is fresh, yet no type-mismatch error is
raised, because the source checks `isinstance`, not type equality. -/
theorem C5_subclass_accepted :
    exFSub.ptype ≠ PyType.pyList
  ∧ exD1.dtype = some PyType.pyList
  ∧ exFSub.len = exD1.num_features
  ∧ OMap.hasKey exD1.data "b" = false
  ∧ (exD1.add_sample "b" exFSub (Value.int 2) (Value.str "y")).2 = Option.none := by
  decide

/-- C5 (amended): on a nonempty dataset with a fresh sample id,
`add_sample` raises the dimensionality error exactly when `len(features)`
differs from the established dimensionality; when the length matches, it
raises the type-mismatch error exactly when `features` fails the
`isinstance` check against the established `elementType` (the source uses
`isinstance`, which also accepts subclasses, not exact type equality);
and when both checks pass the sample is appended at the end of the
iteration order of all three dicts. -/
theorem C5_add_sample_checks (d : MLDataset) (sid : String) (f : Features)
    (lab cid : Value) (t : PyType)
    (hne : d.data ≠ []) (hfresh : OMap.hasKey d.data sid = false)
    (ht : d.dtype = some t) :
    ((d.add_sample sid f lab cid).2 =
        some (PyError.dimMismatch f.len d.num_features) ↔
      f.len ≠ d.num_features)
  ∧ (f.len = d.num_features →
      ((d.add_sample sid f lab cid).2 = some (PyError.typeMismatch t) ↔
        f.ptype.isinstanceOf t = false))
  ∧ (f.len = d.num_features → f.ptype.isinstanceOf t = true →
      d.add_sample sid f lab cid =
        ({ d with data := d.data ++ [(sid, f)],
                  labels := d.labels ++ [(sid, lab)],
                  classes := d.classes ++ [(sid, cid)] }, Option.none)) := by
  have h1 : ¬(OMap.hasKey d.data sid = true) := by simp [hfresh]
  have h2 : ¬(MLDataset.num_samples d ≤ 0) := by
    have hp := List.length_pos.2 hne
    unfold MLDataset.num_samples
    omega
  by_cases h3 : d.num_features ≠ f.len
  · have he : d.add_sample sid f lab cid =
        (d, some (PyError.dimMismatch f.len d.num_features)) := by
      unfold MLDataset.add_sample
      rw [if_neg h1, if_neg h2, if_pos h3]
    refine ⟨?_, ?_, ?_⟩
    · rw [he]
      constructor
      · intro _
        exact Ne.symm h3
      · intro _
        rfl
    · intro hlen
      exact absurd hlen.symm h3
    · intro hlen _
      exact absurd hlen.symm h3
  · have hlen' : d.num_features = f.len := of_not_not (by simpa using h3)
    have hred : d.add_sample sid f lab cid =
        if f.ptype.isinstanceOf t = true then
          ({ d with data := d.data ++ [(sid, f)],
                    labels := d.labels ++ [(sid, lab)],
                    classes := d.classes ++ [(sid, cid)] }, Option.none)
        else (d, some (PyError.typeMismatch t)) := by
      unfold MLDataset.add_sample
      rw [if_neg h1, if_neg h2, if_neg h3, ht]
    by_cases h4 : f.ptype.isinstanceOf t = true
    · have he : d.add_sample sid f lab cid =
          ({ d with data := d.data ++ [(sid, f)],
                    labels := d.labels ++ [(sid, lab)],
                    classes := d.classes ++ [(sid, cid)] }, Option.none) := by
        rw [hred, if_pos h4]
      refine ⟨?_, ?_, ?_⟩
      · rw [he]
        constructor
        · intro hc
          exact absurd hc (by simp)
        · intro hc
          exact absurd hlen'.symm hc
      · intro _
        rw [he]
        constructor
        · intro hc
          exact absurd hc (by simp)
        · intro hc
          rw [h4] at hc
          cases hc
      · intro _ _
        exact he
    · have he : d.add_sample sid f lab cid =
          (d, some (PyError.typeMismatch t)) := by
        rw [hred, if_neg h4]
      refine ⟨?_, ?_, ?_⟩
      · rw [he]
        constructor
        · intro hc
          have hc2 := Option.some.inj hc
          exact PyError.noConfusion hc2
        · intro hc
          exact absurd hlen'.symm hc
      · intro _
        rw [he]
        constructor
        · intro _
          cases hb : f.ptype.isinstanceOf t with
          | false => rfl
          | true => exact absurd hb h4
        · intro _
          rfl
      · intro _ hinst
        exact absurd hinst h4

theorem C5_add_sample_checks_witness :
    exD1.add_sample "b" exFL34 (Value.int 2) (Value.str "y") =
      ({ exD1 with data := exD1.data ++ [("b", exFL34)],
                   labels := exD1.labels ++ [("b", Value.int 2)],
                   classes := exD1.classes ++ [("b", Value.str "y")] },
        Option.none) ∧
    (exD1.add_sample "c" exFL9 (Value.int 2) (Value.str "y")).2 =
      some (PyError.dimMismatch exFL9.len exD1.num_features) :=
  ⟨(C5_add_sample_checks exD1 "b" exFL34 (Value.int 2) (Value.str "y")
      PyType.pyList (by decide) (by decide) rfl).2.2 rfl rfl,
   ((C5_add_sample_checks exD1 "c" exFL9 (Value.int 2) (Value.str "y")
      PyType.pyList (by decide) (by decide) rfl).1).mpr (by decide)⟩

theorem filter_length_eq_inter_card (ks ids : List String) (hnd : ks.Nodup) :
    (ks.filter (fun k => ids.contains k)).length =
      (ids.toFinset ∩ ks.toFinset).card := by
  have h1 : (ks.filter (fun k => ids.contains k)).toFinset.card =
      (ks.filter (fun k => ids.contains k)).length :=
    List.toFinset_card_of_nodup (hnd.filter _)
  rw [← h1]
  congr 1
  rw [List.toFinset_filter]
  ext x
  simp only [Finset.mem_filter, Finset.mem_inter, List.mem_toFinset]
  constructor
  · rintro ⟨hk, hc⟩
    exact ⟨(contains_iff_mem' _ _).1 hc, hk⟩
  · rintro ⟨hi, hk⟩
    exact ⟨hk, (contains_iff_mem' _ _).2 hi⟩

/-- C3: for a dataset satisfying the structural invariant, `get_subset`
never raises; the subset's data keys are the parent's key list restricted
to the requested ids (parent order, not request order); the subset's
`num_samples` is the cardinality of the intersection of the requested ids
with the existing keys; the result depends only on the set of requested
ids (any permutation of the request gives the identical result); and the
subset's three mapping objects are freshly allocated, so writing to any
of them leaves all of the parent's mapping objects unchanged. -/
theorem C3_get_subset (d : MLDataset) (ids ids2 : List String)
    (st : Store) (p : DSRef) (mo : MapObj) (j : Nat)
    (hInv : DSInv d) (hperm : ids2.Perm ids)
    (hp : p.dref < st.length ∧ p.lref < st.length ∧ p.cref < st.length)
    (hj : j ∈ DSRef.refs (get_subset_alloc st p ids).2) :
    (d.get_subset ids).isOk = true
  ∧ OMap.keys (subOf (d.get_subset ids)).data =
      (OMap.keys d.data).filter (fun k => ids.contains k)
  ∧ MLDataset.num_samples (subOf (d.get_subset ids)) =
      (ids.toFinset ∩ (OMap.keys d.data).toFinset).card
  ∧ d.get_subset ids2 = d.get_subset ids
  ∧ readBack (((get_subset_alloc st p ids).1).set j mo) p =
      readBack ((get_subset_alloc st p ids).1) p := by
  have hmain : (d.get_subset ids).isOk = true
      ∧ OMap.keys (subOf (d.get_subset ids)).data =
        (OMap.keys d.data).filter (fun k => ids.contains k)
      ∧ MLDataset.num_samples (subOf (d.get_subset ids)) =
        (ids.toFinset ∩ (OMap.keys d.data).toFinset).card := by
    by_cases hx : 0 < (ids.filter (fun k => OMap.hasKey d.data k)).length
    · rw [get_subset_ok d ids hInv hx]
      refine ⟨rfl, ?_, ?_⟩
      · show OMap.keys (get_subset_from_dict d.data ids) = _
        unfold get_subset_from_dict
        exact keys_filter d.data (fun k => ids.contains k)
      · show (get_subset_from_dict d.data ids).length = _
        unfold get_subset_from_dict
        rw [filter_pairs_length]
        exact filter_length_eq_inter_card _ _ hInv.1.1
    · have hnone : ∀ k ∈ ids, OMap.hasKey d.data k = false := by
        intro k hk
        by_contra hcon
        have htrue : OMap.hasKey d.data k = true := by
          cases hc : OMap.hasKey d.data k with
          | true => rfl
          | false => exact absurd hc hcon
        have hmem : k ∈ ids.filter (fun k => OMap.hasKey d.data k) :=
          List.mem_filter.2 ⟨hk, htrue⟩
        exact hx (List.length_pos.2 (List.ne_nil_of_mem hmem))
      rw [get_subset_warn d ids hnone]
      refine ⟨rfl, ?_, ?_⟩
      · show ([] : List String) = _
        symm
        rw [List.filter_eq_nil_iff]
        intro k hk hc
        have hkid : k ∈ ids := (contains_iff_mem' _ _).1 hc
        have hfalse := hnone k hkid
        have hkk : OMap.hasKey d.data k = true := (contains_iff_mem' _ _).2 hk
        rw [hfalse] at hkk
        cases hkk
      · show (0 : Nat) = _
        symm
        rw [Finset.card_eq_zero]
        ext x
        simp only [Finset.mem_inter, List.mem_toFinset, Finset.not_mem_empty,
          iff_false, not_and]
        intro hxi hxk
        have h1 := hnone x hxi
        have h2 : OMap.hasKey d.data x = true := (contains_iff_mem' _ _).2 hxk
        rw [h1] at h2
        cases h2
  have hcont : ∀ k, ids2.contains k = ids.contains k := by
    intro k
    by_cases hm : k ∈ ids
    · rw [(contains_iff_mem' ids k).2 hm,
        (contains_iff_mem' ids2 k).2 (hperm.mem_iff.2 hm)]
    · have hA : ids.contains k = false := by
        cases hc : ids.contains k with
        | false => rfl
        | true => exact absurd ((contains_iff_mem' _ _).1 hc) hm
      have hB : ids2.contains k = false := by
        cases hc : ids2.contains k with
        | false => rfl
        | true =>
          exact absurd (hperm.mem_iff.1 ((contains_iff_mem' _ _).1 hc)) hm
      rw [hA, hB]
  have hfunF : (fun kv : String × Features => ids2.contains kv.1) =
      (fun kv => ids.contains kv.1) := funext (fun kv => hcont kv.1)
  have hfunV : (fun kv : String × Value => ids2.contains kv.1) =
      (fun kv => ids.contains kv.1) := funext (fun kv => hcont kv.1)
  have hlenf : (ids2.filter (fun k => OMap.hasKey d.data k)).length =
      (ids.filter (fun k => OMap.hasKey d.data k)).length :=
    (hperm.filter _).length_eq
  have hpermEq : d.get_subset ids2 = d.get_subset ids := by
    unfold MLDataset.get_subset get_subset_from_dict
    rw [hlenf, hfunF, hfunV]
  obtain ⟨hp1, hp2, hp3⟩ := hp
  have hjcases : j = st.length ∨ j = st.length + 1 ∨ j = st.length + 2 := by
    have hrefs : DSRef.refs (get_subset_alloc st p ids).2 =
        [st.length, st.length + 1, st.length + 2] := rfl
    rw [hrefs] at hj
    simpa using hj
  have hh1 : j ≠ p.dref := by omega
  have hh2 : j ≠ p.lref := by omega
  have hh3 : j ≠ p.cref := by omega
  have hheap : readBack (((get_subset_alloc st p ids).1).set j mo) p =
      readBack ((get_subset_alloc st p ids).1) p := by
    unfold readBack Store.getF Store.getV
    rw [List.getElem?_set_ne hh1, List.getElem?_set_ne hh2,
      List.getElem?_set_ne hh3]
  exact ⟨hmain.1, hmain.2.1, hmain.2.2, hpermEq, hheap⟩

theorem C3_get_subset_witness :
    (exD3.get_subset ["s3", "s1"]).isOk = true
  ∧ OMap.keys (subOf (exD3.get_subset ["s3", "s1"])).data = ["s1", "s3"]
  ∧ MLDataset.num_samples (subOf (exD3.get_subset ["s3", "s1"])) = 2
  ∧ exD3.get_subset ["s1", "s3"] = exD3.get_subset ["s3", "s1"]
  ∧ readBack (((get_subset_alloc exStore exRef ["s3", "s1"]).1).set 3
        (MapObj.fmap [])) exRef
      = readBack ((get_subset_alloc exStore exRef ["s3", "s1"]).1) exRef := by
  have h := C3_get_subset exD3 ["s3", "s1"] ["s1", "s3"] exStore exRef
    (MapObj.fmap []) 3 (by decide) (by decide) (by decide) (by decide)
  exact ⟨h.1, h.2.1.trans (by decide), h.2.2.1.trans (by decide),
    h.2.2.2.1, h.2.2.2.2⟩

theorem bool_eq_of_iff (a b : Bool) (h : a = true ↔ b = true) : a = b := by
  cases a with
  | true => exact (h.1 rfl).symm
  | false =>
    cases b with
    | true => exact absurd (h.2 rfl) (by simp)
    | false => rfl

/-- C7: for a dataset satisfying the structural invariant: when the class
id is not among the stored class values, `get_class` raises the
unknown-class error (it is a pure query, so the dataset is untouched);
when it is, `get_class` succeeds without warning and returns a dataset
holding exactly the samples whose recorded class id equals the argument,
in the parent's key iteration order. -/
theorem C7_get_class (d : MLDataset) (c : Value) (hInv : DSInv d) :
    ((MLDataset.class_set d).contains c = false →
      d.get_class c = Except.error (PyError.unknownClass c))
  ∧ ((MLDataset.class_set d).contains c = true →
      (d.get_class c).isOk = true
      ∧ (subOf (d.get_class c)).data =
          d.data.filter (fun kv => OMap.lookup d.classes kv.1 == some c)
      ∧ OMap.keys (subOf (d.get_class c)).data =
          (OMap.keys d.data).filter
            (fun k => OMap.lookup d.classes k == some c)) := by
  constructor
  · intro hc
    unfold MLDataset.get_class
    rw [if_neg (fun hct => by rw [hc] at hct; cases hct)]
  · intro hc
    have hidmem : ∀ k,
        k ∈ OMap.keys (d.classes.filter (fun kv => kv.2 == c)) ↔
          OMap.lookup d.classes k = some c := by
      intro k
      rw [mem_keys]
      constructor
      · rintro ⟨w, hw⟩
        have hw2 := List.mem_filter.1 hw
        have hwc : w = c := by simpa using hw2.2
        subst hwc
        exact (lookup_eq_some_iff d.classes hInv.1.2.2 k w).2 hw2.1
      · intro hl
        have hmem := (lookup_eq_some_iff d.classes hInv.1.2.2 k c).1 hl
        refine ⟨c, List.mem_filter.2 ⟨hmem, ?_⟩⟩
        simp
    have hcm : c ∈ OMap.vals d.classes :=
      List.mem_dedup.1 ((contains_iff_mem' _ _).1 hc)
    obtain ⟨kv, hkv, hkvc⟩ := List.mem_map.1 hcm
    have hkvmem : (kv.1, c) ∈ d.classes := by
      rw [← hkvc]
      exact hkv
    have hk_ids : kv.1 ∈ OMap.keys (d.classes.filter (fun kv => kv.2 == c)) :=
      (hidmem kv.1).2 ((lookup_eq_some_iff d.classes hInv.1.2.2 kv.1 c).2 hkvmem)
    have hk_data : OMap.hasKey d.data kv.1 = true := by
      have h1 : kv.1 ∈ OMap.keys d.classes := (mem_keys _ _).2 ⟨kv.2, hkv⟩
      have h2 := (setEqB_iff _ _).1 hInv.2.2.1.2 kv.1
      exact (contains_iff_mem' _ _).2 (h2.2 h1)
    have hx : 0 < ((OMap.keys (d.classes.filter (fun kv => kv.2 == c))).filter
        (fun k => OMap.hasKey d.data k)).length := by
      have hmem : kv.1 ∈ (OMap.keys (d.classes.filter (fun kv => kv.2 == c))).filter
          (fun k => OMap.hasKey d.data k) :=
        List.mem_filter.2 ⟨hk_ids, hk_data⟩
      exact List.length_pos.2 (List.ne_nil_of_mem hmem)
    have hgceq : d.get_class c =
        d.get_subset (OMap.keys (d.classes.filter (fun kv => kv.2 == c))) := by
      unfold MLDataset.get_class
      rw [if_pos hc]
    have hdeq : get_subset_from_dict d.data
        (OMap.keys (d.classes.filter (fun kv => kv.2 == c))) =
        d.data.filter (fun kv => OMap.lookup d.classes kv.1 == some c) := by
      unfold get_subset_from_dict
      apply List.filter_congr
      intro kv2 hkv2
      apply bool_eq_of_iff
      constructor
      · intro ha
        exact beq_iff_eq.2 ((hidmem kv2.1).1 ((contains_iff_mem' _ _).1 ha))
      · intro hb
        exact (contains_iff_mem' _ _).2 ((hidmem kv2.1).2 (beq_iff_eq.1 hb))
    rw [hgceq, get_subset_ok d _ hInv hx]
    refine ⟨rfl, ?_, ?_⟩
    · show get_subset_from_dict d.data _ = _
      exact hdeq
    · show OMap.keys (get_subset_from_dict d.data _) = _
      rw [hdeq]
      exact keys_filter d.data (fun k => OMap.lookup d.classes k == some c)

theorem C7_get_class_witness :
    exD3.get_class (Value.str "zz")
      = Except.error (PyError.unknownClass (Value.str "zz"))
  ∧ (exD3.get_class (Value.str "x")).isOk = true
  ∧ OMap.keys (subOf (exD3.get_class (Value.str "x"))).data = ["s1", "s3"] := by
  have he := (C7_get_class exD3 (Value.str "zz") (by decide)).1 (by decide)
  have h := (C7_get_class exD3 (Value.str "x") (by decide)).2 (by decide)
  exact ⟨he, h.1, h.2.2.trans (by decide)⟩
